import Mathlib

/-!
Verification of the Fleet Chat plugin packager (`src/tools/package-plugin.py`).

The script is embedded shallowly: the relevant on-disk state of the plugin
source directory is a `PluginDir`, JSON documents are values of the `Json`
inductive (rendered to text exactly as Python's `json.dump(..., indent=2)`
does), SHA-256 is implemented over byte lists mirroring `hashlib.sha256` /
`hexdigest`, and `pack` is the pure counterpart of `pack_plugin`: it returns
the result (final archive or the raised error) together with a trace of the
writes performed at `outputPath` and whether the staging directory
(`<plugin_dir>/.fleet-pack`) exists when the call returns or raises.
-/

namespace FleetPack

/-- A byte is modelled as a `Nat` (values are kept below 256 by construction). -/
abbrev Bytes := List Nat

/-- JSON values, as produced by `json.load` on the descriptor file. -/
inductive Json where
  | null : Json
  | bool (b : Bool) : Json
  | num (n : Int) : Json
  | str (s : String) : Json
  | arr (items : List Json) : Json
  | obj (fields : List (String × Json)) : Json

/-- Python dict lookup `d[k]` / `d.get(k)`: first field with the given key. -/
def Json.lookup : Json → String → Option Json
  | .obj fields, k => (fields.find? (fun f => f.1 == k)).map (·.2)
  | _, _ => none

/-- Python dict assignment `d[k] = v` on an existing key: the value is
replaced in place, insertion order is kept. -/
def Json.setKey : Json → String → Json → Json
  | .obj fields, k, v => .obj (fields.map (fun f => if f.1 == k then (k, v) else f))
  | j, _, _ => j

/-- Python truthiness of a JSON value (`if manifest.get("icon"):`). -/
def Json.truthy : Json → Bool
  | .null => false
  | .bool b => b
  | .num n => n != 0
  | .str s => s != ""
  | .arr items => !items.isEmpty
  | .obj fields => !fields.isEmpty

/-- Lower-case hexadecimal digit for a value below 16. -/
def hexDigit (n : Nat) : Char :=
  if n < 10 then Char.ofNat (48 + n) else Char.ofNat (87 + n)

/-- Four-digit hexadecimal rendering, for `\uXXXX` escapes. -/
def hex4 (n : Nat) : String :=
  String.mk [hexDigit (n / 4096 % 16), hexDigit (n / 256 % 16), hexDigit (n / 16 % 16), hexDigit (n % 16)]

/-- Escaping of one character inside a JSON string, as Python's `json.dump`
with its default `ensure_ascii=True` performs it (characters above the
basic multilingual plane are not modelled). -/
def escapeChar (c : Char) : String :=
  if c = '"' then "\\\""
  else if c = '\\' then "\\\\"
  else if c = '\n' then "\\n"
  else if c = '\t' then "\\t"
  else if c = '\r' then "\\r"
  else if c.toNat < 32 || 126 < c.toNat then "\\u" ++ hex4 c.toNat
  else String.mk [c]

/-- A JSON string literal with quotes and escapes. -/
def escapeString (s : String) : String :=
  "\"" ++ String.join (s.data.map escapeChar) ++ "\""

/-- `2 * n` spaces: the indentation `json.dump(..., indent=2)` uses at
nesting depth `n`. -/
def spaces (n : Nat) : String :=
  String.mk (List.replicate (2 * n) ' ')

mutual

/-- Rendering of a JSON value exactly as `json.dump(value, f, indent=2)`
writes it, where `lvl` is the nesting depth of the line the value starts on. -/
def Json.render : Json → Nat → String
  | .null, _ => "null"
  | .bool true, _ => "true"
  | .bool false, _ => "false"
  | .num n, _ => toString n
  | .str s, _ => escapeString s
  | .arr [], _ => "[]"
  | .arr (j :: js), lvl =>
      "[\n" ++ String.intercalate ",\n"
        ((Json.renderList (j :: js) (lvl + 1)).map (fun e => spaces (lvl + 1) ++ e)) ++
      "\n" ++ spaces lvl ++ "]"
  | .obj [], _ => "\x7b\x7d"
  | .obj (f :: fs), lvl =>
      "\x7b\n" ++ String.intercalate ",\n"
        ((Json.renderFields (f :: fs) (lvl + 1)).map (fun e => spaces (lvl + 1) ++ e)) ++
      "\n" ++ spaces lvl ++ "\x7d"
termination_by structural j => j

/-- Renders each array element (indentation is added by the caller). -/
def Json.renderList : List Json → Nat → List String
  | [], _ => []
  | j :: js, lvl => j.render lvl :: Json.renderList js lvl
termination_by structural l => l

/-- Renders each `"key": value` item of an object. -/
def Json.renderFields : List (String × Json) → Nat → List String
  | [], _ => []
  | f :: fs, lvl => (escapeString f.1 ++ ": " ++ f.2.render lvl) :: Json.renderFields fs lvl
termination_by structural l => l

end

/-- The bytes of a text file: the strings involved are ASCII, so UTF-8
encoding is character-wise. -/
def stringToBytes (s : String) : Bytes :=
  s.data.map Char.toNat

end FleetPack

namespace FleetPack

/-! ### SHA-256 (`hashlib.sha256` / `hexdigest`) -/

/-- Truncation to a 32-bit word. -/
def w32 (n : Nat) : Nat := n % 4294967296

/-- Right rotation of a 32-bit word. -/
def rotr (n x : Nat) : Nat := w32 ((x >>> n) ||| (x <<< (32 - n)))

def bigSigma0 (x : Nat) : Nat := rotr 2 x ^^^ rotr 13 x ^^^ rotr 22 x
def bigSigma1 (x : Nat) : Nat := rotr 6 x ^^^ rotr 11 x ^^^ rotr 25 x
def smallSigma0 (x : Nat) : Nat := rotr 7 x ^^^ rotr 18 x ^^^ (x >>> 3)
def smallSigma1 (x : Nat) : Nat := rotr 17 x ^^^ rotr 19 x ^^^ (x >>> 10)
def chFn (x y z : Nat) : Nat := (x &&& y) ^^^ ((x ^^^ 4294967295) &&& z)
def majFn (x y z : Nat) : Nat := (x &&& y) ^^^ (x &&& z) ^^^ (y &&& z)

/-- The 64 SHA-256 round constants of FIPS 180-4, written in decimal. -/
def shaK : List Nat :=
  [1116352408, 1899447441, 3049323471, 3921009573, 961987163,
   1508970993, 2453635748, 2870763221, 3624381080, 310598401,
   607225278, 1426881987, 1925078388, 2162078206, 2614888103,
   3248222580, 3835390401, 4022224774, 264347078, 604807628,
   770255983, 1249150122, 1555081692, 1996064986, 2554220882,
   2821834349, 2952996808, 3210313671, 3336571891, 3584528711,
   113926993, 338241895, 666307205, 773529912, 1294757372,
   1396182291, 1695183700, 1986661051, 2177026350, 2456956037,
   2730485921, 2820302411, 3259730800, 3345764771, 3516065817,
   3600352804, 4094571909, 275423344, 430227734, 506948616,
   659060556, 883997877, 958139571, 1322822218, 1537002063,
   1747873779, 1955562222, 2024104815, 2227730452, 2361852424,
   2428436474, 2756734187, 3204031479, 3329325298]

/-- The initial SHA-256 state of FIPS 180-4, written in decimal. -/
def shaH0 : List Nat :=
  [1779033703, 3144134277, 1013904242, 2773480762,
   1359893119, 2600822924, 528734635, 1541459225]

/-- Big-endian 8-byte encoding of the message bit length. -/
def lenBytes8 (n : Nat) : Bytes :=
  [n >>> 56 % 256, n >>> 48 % 256, n >>> 40 % 256, n >>> 32 % 256,
   n >>> 24 % 256, n >>> 16 % 256, n >>> 8 % 256, n % 256]

/-- SHA-256 padding: `0x80`, zeros to 56 mod 64, then the bit length. -/
def padMessage (msg : Bytes) : Bytes :=
  msg ++ 128 :: List.replicate ((119 - msg.length % 64) % 64) 0 ++ lenBytes8 (8 * msg.length)

/-- Splits a byte list into 64-byte blocks (fuel-driven, fuel = length). -/
def chunksGo : Nat → Bytes → List Bytes
  | _, [] => []
  | 0, _ => []
  | fuel + 1, bs => bs.take 64 :: chunksGo fuel (bs.drop 64)

def chunks64 (bs : Bytes) : List Bytes := chunksGo bs.length bs

/-- Big-endian 32-bit words from bytes. -/
def bytesToWords : Bytes → List Nat
  | b0 :: b1 :: b2 :: b3 :: rest => (b0 * 16777216 + b1 * 65536 + b2 * 256 + b3) :: bytesToWords rest
  | _ => []

/-- One extension step of the message schedule. -/
def scheduleStep (ws : List Nat) : List Nat :=
  let n := ws.length
  ws ++ [w32 (smallSigma1 (ws.getD (n - 2) 0) + ws.getD (n - 7) 0 +
              smallSigma0 (ws.getD (n - 15) 0) + ws.getD (n - 16) 0)]

/-- Iterates the schedule extension. -/
def scheduleExtend : Nat → List Nat → List Nat
  | 0, ws => ws
  | n + 1, ws => scheduleExtend n (scheduleStep ws)

/-- The 64-word message schedule of one block. -/
def schedule (block : Bytes) : List Nat := scheduleExtend 48 (bytesToWords block)

/-- One SHA-256 compression round. -/
def shaRound (st : List Nat) (kw : Nat × Nat) : List Nat :=
  match st with
  | [a, b, c, d, e, f, g, h] =>
      let t1 := w32 (h + bigSigma1 e + chFn e f g + kw.1 + kw.2)
      let t2 := w32 (bigSigma0 a + majFn a b c)
      [w32 (t1 + t2), a, b, c, w32 (d + t1), e, f, g]
  | _ => st

/-- Processes one 64-byte block. -/
def processBlock (H : List Nat) (block : Bytes) : List Nat :=
  let st := ((schedule block).zip shaK).foldl shaRound H
  (H.zip st).map (fun p => w32 (p.1 + p.2))

/-- Big-endian bytes of one 32-bit word. -/
def wordBytes (w : Nat) : Bytes := [w >>> 24 % 256, w >>> 16 % 256, w >>> 8 % 256, w % 256]

/-- The 32-byte SHA-256 digest of a byte list. -/
def sha256 (msg : Bytes) : Bytes :=
  ((chunks64 (padMessage msg)).foldl processBlock shaH0).flatMap wordBytes

/-- Two lower-case hex digits of a byte. -/
def byteToHex (b : Nat) : List Char := [hexDigit (b / 16 % 16), hexDigit (b % 16)]

/-- `hashlib.sha256(data).hexdigest()`: the digest as lower-case hex. -/
def sha256hex (msg : Bytes) : String :=
  String.mk ((sha256 msg).flatMap byteToHex)

end FleetPack

namespace FleetPack

/-! ### The packager (`pack_plugin`) -/

/-- The content of one staged/archived file: either raw bytes of a copied
file, or a JSON document written with `json.dump(..., indent=2)`. -/
inductive FileData where
  | bytes (b : Bytes) : FileData
  | jsonData (j : Json) : FileData

/-- An archive (and likewise the staging directory): the list of contained
files, each with its path relative to the staging root, in the order the
`os.walk` loop writes them (root files first, then `dist/`, then `assets/`;
the exact listing order is directory-state dependent in Python and is
modelled by this fixed representative order — no claim depends on it). -/
abbrev Archive := List (String × FileData)

/-- Bytes of one staged file on disk. -/
def fileBytes : FileData → Bytes
  | .bytes b => b
  | .jsonData j => stringToBytes (j.render 0)

/-- Little-endian 4-byte length field, used by the archive encoding. -/
def natLen4 (n : Nat) : Bytes := [n % 256, n / 256 % 256, n / 65536 % 256, n / 16777216 % 256]

/-- The bytes of the zip file written at `outputPath`. The zip container
format itself is an external collaborator (per the packaging tool it is just
"compress files into an archive"), so it is modelled as a concrete byte
encoding of the entry list: per entry, name length, name bytes, content
length, content bytes. -/
def zipBytes (a : Archive) : Bytes :=
  a.flatMap (fun e =>
    natLen4 e.1.length ++ stringToBytes e.1 ++ natLen4 (fileBytes e.2).length ++ fileBytes e.2)

/-- First entry with the given name (names are unique on disk). -/
def findEntry (a : Archive) (n : String) : Option FileData :=
  (a.find? (fun e => e.1 == n)).map (·.2)

/-- The JSON document stored under the given entry name, if any. -/
def entryJson (a : Archive) (n : String) : Option Json :=
  match findEntry a n with
  | some (.jsonData j) => some j
  | _ => none

/-- The entry names of an archive, in order. -/
def archiveNames (a : Archive) : List String := a.map (·.1)

/-- Writing a file into a directory that may already hold one of that name:
replaces the existing entry in place, otherwise appends. -/
def upsert (l : Archive) (n : String) (d : FileData) : Archive :=
  if l.any (fun e => e.1 == n) then l.map (fun e => if e.1 = n then (n, d) else e)
  else l ++ [(n, d)]

/-- `Path(p).name`: the last `/`-separated component. -/
def baseName (s : String) : String := (s.splitOn "/").getLastD s

/-- Looks a relative path up among the files of the plugin directory
(`(plugin_dir / p).exists()` / reading that file). -/
def findFile (files : List (String × Bytes)) (p : String) : Option Bytes :=
  (files.find? (fun e => e.1 == p)).map (·.2)

/-- The on-disk state of the plugin source directory, as far as
`pack_plugin` reads it:
* `packageJson` — the parsed content of `package.json`, `none` when the file
  does not exist;
* `dist` — the file tree of the `dist` subdirectory (relative path ↦ bytes),
  `none` when `dist` does not exist (`some []` is an existing empty `dist`);
* `assets` — likewise for the `assets` subdirectory;
* `files` — the other files of the plugin directory, for the icon lookup;
* `staleStaging` — whether a leftover `.fleet-pack` directory already exists
  in the plugin directory when `pack` is invoked. -/
structure PluginDir where
  packageJson : Option Json
  dist : Option (List (String × Bytes))
  assets : Option (List (String × Bytes))
  files : List (String × Bytes)
  staleStaging : Bool

/-- The errors `pack_plugin` raises before reaching the staging phase:
`FileNotFoundError` when `package.json` is absent (the spec's
`MissingDescriptor`), and `KeyError` on the first absent required field
(the spec's `InvalidDescriptor`). -/
inductive PackError where
  | missingDescriptor : PackError
  | invalidDescriptor (field : String) : PackError
  deriving DecidableEq, Repr

/-- Externally visible effects of one `pack_plugin` call: the successive
full writes performed at `outputPath`, and whether the staging directory
`<plugin_dir>/.fleet-pack` exists when the call returns or raises. -/
structure PackTrace where
  outputWrites : List Archive
  stagingExists : Bool

/-- Lines 49–57: the manifest dict. Required keys are plain subscripts
(`KeyError` when absent, reported via `Except.error` with the key); the
optional ones use `.get` with its default (`None` for `icon`, `[]` for
`commands` and `permissions`). -/
def extractManifest (pj : Json) : Except String Json :=
  match pj.lookup "name" with
  | none => .error "name"
  | some nameV =>
    match pj.lookup "version" with
    | none => .error "version"
    | some versionV =>
      match pj.lookup "description" with
      | none => .error "description"
      | some descriptionV =>
        match pj.lookup "author" with
        | none => .error "author"
        | some authorV =>
          .ok (.obj [("name", nameV), ("version", versionV),
                     ("description", descriptionV), ("author", authorV),
                     ("icon", (pj.lookup "icon").getD .null),
                     ("commands", (pj.lookup "commands").getD (.arr [])),
                     ("permissions", (pj.lookup "permissions").getD (.arr []))])

/-- Lines 24–31: `create_plugin_metadata` (the checksum starts empty and is
filled in only after the first archive pass). -/
def createPluginMetadata (manifest : Json) (buildTime : String) (fleetChatVersion : String) : Json :=
  .obj [("manifest", manifest), ("checksum", .str ""),
        ("buildTime", .str buildTime), ("fleetChatVersion", .str fleetChatVersion)]

/-- Lines 67–69: files contributed by copying `dist` into the staging area. -/
def distEntries (d : Option (List (String × Bytes))) : Archive :=
  (d.getD []).map (fun p => ("dist/" ++ p.1, FileData.bytes p.2))

/-- Lines 72–74: files contributed by copying `assets`. -/
def assetsEntries (d : Option (List (String × Bytes))) : Archive :=
  (d.getD []).map (fun p => ("assets/" ++ p.1, FileData.bytes p.2))

/-- Lines 77–80: the icon copy. It happens only when the manifest's icon
value is truthy and the referenced file exists; the copy lands at the
staging root under the icon's own filename. (A truthy non-string icon
value would make `Path` raise a `TypeError` in Python; descriptors with
such icons are outside the modelled input space.) -/
def iconEntries (dir : PluginDir) (manifest : Json) : Archive :=
  match manifest.lookup "icon" with
  | some v =>
      if v.truthy then
        match v with
        | .str s =>
            match findFile dir.files s with
            | some b => [(baseName s, FileData.bytes b)]
            | none => []
        | _ => []
      else []
  | none => []

/-- The staging directory contents for a given `metadata.json` document:
icon copy first, then `manifest.json` and `metadata.json` are written
(overwriting a same-named copied file, hence the upserts), plus the mirrored
`dist/` and `assets/` trees. This is also the entry list of the archive the
zip loop writes from it. -/
def stagingArchive (dir : PluginDir) (manifest metadata : Json) : Archive :=
  upsert (upsert (iconEntries dir manifest) "manifest.json" (.jsonData manifest))
      "metadata.json" (.jsonData metadata)
    ++ distEntries dir.dist ++ assetsEntries dir.assets

/-- The archive written by pass 1 (lines 86–97): the staging area still
holds the `metadata.json` with the empty checksum. -/
def pass1Archive (dir : PluginDir) (buildTime : String) (manifest : Json) : Archive :=
  stagingArchive dir manifest (createPluginMetadata manifest buildTime "1.0.0")

/-- Lines 99–103: the metadata after `metadata["checksum"] = checksum`,
where `checksum` is the SHA-256 hex digest of the file sitting at
`outputPath` at that moment — the pass-1 archive. -/
def finalMetadata (dir : PluginDir) (buildTime : String) (manifest : Json) : Json :=
  (createPluginMetadata manifest buildTime "1.0.0").setKey "checksum"
    (.str (sha256hex (zipBytes (pass1Archive dir buildTime manifest))))

/-- Lines 105–111: the pass-2 archive, rebuilt from the same staging area
whose `metadata.json` has been rewritten. -/
def pass2Archive (dir : PluginDir) (buildTime : String) (manifest : Json) : Archive :=
  stagingArchive dir manifest (finalMetadata dir buildTime manifest)

/-- Lines 59–122, after the manifest has been extracted successfully: the
staging area is (re)created, filled, zipped (pass 1), the checksum of the
pass-1 archive bytes is computed and written into `metadata.json`, the
archive is rebuilt (pass 2), and the `finally:` removes the staging area. -/
def packWithManifest (dir : PluginDir) (buildTime : String) (manifest : Json) :
    Except PackError Archive × PackTrace :=
  (.ok (pass2Archive dir buildTime manifest),
   ⟨[pass1Archive dir buildTime manifest, pass2Archive dir buildTime manifest], false⟩)

/-- `pack_plugin(plugin_dir, output_path)` as a pure function of the plugin
directory state and the clock value `datetime.now().isoformat()` returns.
The two early failures happen before the staging area is created and before
the `try`/`finally`, so on those paths nothing is written and a pre-existing
`.fleet-pack` directory is left as it was. -/
def pack (dir : PluginDir) (buildTime : String) : Except PackError Archive × PackTrace :=
  match dir.packageJson with
  | none => (.error .missingDescriptor, ⟨[], dir.staleStaging⟩)
  | some pj =>
    match extractManifest pj with
    | .error k => (.error (.invalidDescriptor k), ⟨[], dir.staleStaging⟩)
    | .ok manifest => packWithManifest dir buildTime manifest

/-- 64 lower-case hexadecimal characters. -/
def isLowerHexChar (c : Char) : Bool :=
  (48 ≤ c.toNat && c.toNat ≤ 57) || (97 ≤ c.toNat && c.toNat ≤ 102)

def isLowerHex64 (s : String) : Bool :=
  s.length == 64 && s.data.all isLowerHexChar

/-- The checksum string stored in the `metadata.json` entry of an archive. -/
def storedChecksum (a : Archive) : Option String :=
  match entryJson a "metadata.json" with
  | some md =>
      match md.lookup "checksum" with
      | some (.str s) => some s
      | _ => none
  | none => none

/-- `charsLead p s`: the character list `p` leads the character list `s`. -/
def charsLead : List Char → List Char → Bool
  | [], _ => true
  | _ :: _, [] => false
  | a :: as, b :: bs => a == b && charsLead as bs

/-- `strLeads p s`: the string `s` starts with the string `p`. -/
def strLeads (p s : String) : Bool := charsLead p.data s.data

/-- The manifest entry of a run's final archive, when the run succeeds. -/
def resultManifest (r : Except PackError Archive) : Option Json :=
  r.toOption.bind (fun a => entryJson a "manifest.json")

/-- The `metadata.json` document of a run's final archive. -/
def resultMetadata (r : Except PackError Archive) : Option Json :=
  r.toOption.bind (fun a => entryJson a "metadata.json")

/-! ### Concrete inputs used by the witnesses and counterexamples -/

/-- The end-to-end scenario descriptor:
`{"name":"demo","version":"1.0.0","description":"d","author":"a"}`. -/
def pjDemo : Json :=
  .obj [("name", .str "demo"), ("version", .str "1.0.0"),
        ("description", .str "d"), ("author", .str "a")]

/-- The end-to-end scenario input: `package.json` with the four required
fields only, an existing but empty `dist/`, no `assets/`, no icon, and no
leftover staging directory. -/
def demoDir : PluginDir :=
  { packageJson := some pjDemo,
    dist := some [], assets := none, files := [], staleStaging := false }

/-- A descriptor with `name`, `version` and `description` but no `author`. -/
def pjNoAuthor : Json :=
  .obj [("name", .str "x"), ("version", .str "0.1"), ("description", .str "d")]

/-- A plugin directory whose descriptor lacks `author` and which still holds
a leftover `.fleet-pack` directory from some earlier run. -/
def dirNoAuthorStale : PluginDir :=
  { packageJson := some pjNoAuthor, dist := none, assets := none, files := [],
    staleStaging := true }

/-- The same descriptor without the leftover staging directory. -/
def dirNoAuthorClean : PluginDir :=
  { packageJson := some pjNoAuthor, dist := none, assets := none, files := [],
    staleStaging := false }

/-- A plugin directory with no `package.json` but with a leftover
`.fleet-pack` directory. -/
def dirNoDescriptorStale : PluginDir :=
  { packageJson := none, dist := none, assets := none, files := [],
    staleStaging := true }

/-- A plugin directory with no `package.json` and no leftover staging. -/
def dirNoDescriptorClean : PluginDir :=
  { packageJson := none, dist := none, assets := none, files := [],
    staleStaging := false }

/-- A descriptor carrying an unrecognized field next to the recognized ones. -/
def pjWithExtra : Json :=
  .obj [("name", .str "demo"), ("version", .str "1.0.0"),
        ("description", .str "d"), ("author", .str "a"),
        ("extra", .str "ignored"), ("keywords", .arr [.str "chat"])]

/-- The same descriptor without the unrecognized fields. -/
def pjWithoutExtra : Json :=
  .obj [("name", .str "demo"), ("version", .str "1.0.0"),
        ("description", .str "d"), ("author", .str "a")]

/-- A descriptor declaring an icon file that will not exist on disk. -/
def pjMissingIcon : Json :=
  .obj [("name", .str "demo"), ("version", .str "1.0.0"),
        ("description", .str "d"), ("author", .str "a"),
        ("icon", .str "assets/icon.png")]

/-- A valid plugin directory whose descriptor declares an icon file that
does not exist in the plugin directory. -/
def dirMissingIcon : PluginDir :=
  { packageJson := some pjMissingIcon,
    dist := some [("index.js", stringToBytes "console.log(1)")],
    assets := none, files := [], staleStaging := false }

end FleetPack

namespace FleetPack

/-! ### Helper lemmas -/

theorem findEntry_cons (e : String × FileData) (l : Archive) (n : String) :
    findEntry (e :: l) n = if e.1 == n then some e.2 else findEntry l n := by
  cases h : e.1 == n <;> simp [findEntry, List.find?, h]

theorem findEntry_append_left {l l' : Archive} {n : String} {d : FileData}
    (h : findEntry l n = some d) : findEntry (l ++ l') n = some d := by
  unfold findEntry at h ⊢
  rw [List.find?_append]
  rcases Option.map_eq_some'.mp h with ⟨e, hf, he⟩
  rw [hf]
  simp [he]

theorem findEntry_map_replace {l : Archive} {n : String} {d : FileData}
    (h : l.any (fun e => e.1 == n) = true) :
    findEntry (l.map (fun e => if e.1 = n then (n, d) else e)) n = some d := by
  induction l with
  | nil => simp at h
  | cons e es ih =>
    by_cases he : e.1 = n
    · simp [he, findEntry_cons]
    · have hb : (e.1 == n) = false := beq_eq_false_iff_ne.mpr he
      rw [List.any_cons, hb, Bool.false_or] at h
      simp [he, findEntry_cons, ih h]

theorem findEntry_append_single {l : Archive} {n : String} {d : FileData}
    (hnone : l.find? (fun e => e.1 == n) = none) :
    findEntry (l ++ [(n, d)]) n = some d := by
  unfold findEntry
  rw [List.find?_append, hnone]
  simp [List.find?]

theorem findEntry_upsert_self (l : Archive) (n : String) (d : FileData) :
    findEntry (upsert l n d) n = some d := by
  unfold upsert
  by_cases h : l.any (fun e => e.1 == n) = true
  · rw [if_pos h]; exact findEntry_map_replace h
  · rw [if_neg h]
    refine findEntry_append_single ?_
    rw [List.find?_eq_none]
    intro x hx hc
    exact h (List.any_eq_true.mpr ⟨x, hx, hc⟩)

theorem findEntry_map_replace_ne {l : Archive} {n n' : String} {d : FileData}
    (hne : n' ≠ n) :
    findEntry (l.map (fun e => if e.1 = n' then (n', d) else e)) n = findEntry l n := by
  induction l with
  | nil => rfl
  | cons e es ih =>
    by_cases he : e.1 = n'
    · have h2 : ¬ e.1 = n := by rw [he]; exact hne
      simp [he, hne, h2, findEntry_cons, ih]
    · simp [he, findEntry_cons, ih]

theorem findEntry_append_single_ne {l : Archive} {n n' : String} {d : FileData}
    (hne : n' ≠ n) :
    findEntry (l ++ [(n', d)]) n = findEntry l n := by
  unfold findEntry
  rw [List.find?_append]
  have hb : (n' == n) = false := beq_eq_false_iff_ne.mpr hne
  have hnone : List.find? (fun e => e.1 == n) [(n', d)] = none := by
    simp [List.find?, hb]
  rw [hnone]
  simp

theorem findEntry_upsert_ne (l : Archive) {n n' : String} (d : FileData)
    (hne : n' ≠ n) :
    findEntry (upsert l n' d) n = findEntry l n := by
  unfold upsert
  by_cases h : l.any (fun e => e.1 == n') = true
  · rw [if_pos h]; exact findEntry_map_replace_ne hne
  · rw [if_neg h]; exact findEntry_append_single_ne hne

theorem findEntry_staging_metadata (dir : PluginDir) (m md : Json) :
    findEntry (stagingArchive dir m md) "metadata.json" = some (.jsonData md) := by
  unfold stagingArchive
  exact findEntry_append_left (findEntry_append_left (findEntry_upsert_self ..))

theorem findEntry_staging_manifest (dir : PluginDir) (m md : Json) :
    findEntry (stagingArchive dir m md) "manifest.json" = some (.jsonData m) := by
  unfold stagingArchive
  apply findEntry_append_left
  apply findEntry_append_left
  rw [findEntry_upsert_ne _ _ (by decide)]
  exact findEntry_upsert_self ..

theorem charsLead_append (p r : List Char) : charsLead p (p ++ r) = true := by
  induction p with
  | nil => rfl
  | cons a as ih => simp [charsLead, ih]

theorem strLeads_append (p r : String) : strLeads p (p ++ r) = true := by
  rw [strLeads, String.data_append]
  exact charsLead_append p.data r.data

theorem setKey_checksum (m c : Json) (t v : String) :
    (createPluginMetadata m t v).setKey "checksum" c =
      .obj [("manifest", m), ("checksum", c), ("buildTime", .str t),
            ("fleetChatVersion", .str v)] := rfl

theorem finalMetadata_eq (dir : PluginDir) (t : String) (m : Json) :
    finalMetadata dir t m =
      .obj [("manifest", m),
            ("checksum", .str (sha256hex (zipBytes (pass1Archive dir t m)))),
            ("buildTime", .str t), ("fleetChatVersion", .str "1.0.0")] := rfl

theorem lookup_md_checksum (m c : Json) (t v : String) :
    (Json.obj [("manifest", m), ("checksum", c), ("buildTime", .str t),
               ("fleetChatVersion", .str v)]).lookup "checksum" = some c := rfl

theorem lookup_md_manifest (m c : Json) (t v : String) :
    (Json.obj [("manifest", m), ("checksum", c), ("buildTime", .str t),
               ("fleetChatVersion", .str v)]).lookup "manifest" = some m := rfl

theorem lookup_md_buildTime (m c : Json) (t v : String) :
    (Json.obj [("manifest", m), ("checksum", c), ("buildTime", .str t),
               ("fleetChatVersion", .str v)]).lookup "buildTime" = some (.str t) := rfl

theorem pack_noDescriptor (dir : PluginDir) (t : String) (h : dir.packageJson = none) :
    pack dir t = (.error .missingDescriptor, ⟨[], dir.staleStaging⟩) := by
  simp [pack, h]

theorem pack_badDescriptor (dir : PluginDir) (t : String) (pj : Json) (k : String)
    (hpj : dir.packageJson = some pj) (hE : extractManifest pj = .error k) :
    pack dir t = (.error (.invalidDescriptor k), ⟨[], dir.staleStaging⟩) := by
  simp [pack, hpj, hE]

theorem pack_ok (dir : PluginDir) (t : String) (pj m : Json)
    (hpj : dir.packageJson = some pj) (hE : extractManifest pj = .ok m) :
    pack dir t = packWithManifest dir t m := by
  simp [pack, hpj, hE]

theorem pack_success_cases (dir : PluginDir) (t : String)
    (h : (pack dir t).1.toOption.isSome = true) :
    ∃ pj m, dir.packageJson = some pj ∧ extractManifest pj = .ok m ∧
      pack dir t = packWithManifest dir t m := by
  cases hpj : dir.packageJson with
  | none => simp [pack, hpj, Except.toOption] at h
  | some pj =>
    cases hE : extractManifest pj with
    | error k => simp [pack, hpj, hE, Except.toOption] at h
    | ok m => exact ⟨pj, m, rfl, hE, pack_ok dir t pj m hpj hE⟩

theorem extractManifest_error_noAuthor (pj : Json) (h : pj.lookup "author" = none) :
    ∃ k, extractManifest pj = .error k := by
  cases hn : pj.lookup "name"
  · exact ⟨"name", by simp [extractManifest, hn]⟩
  · cases hv : pj.lookup "version"
    · exact ⟨"version", by simp [extractManifest, hn, hv]⟩
    · cases hd : pj.lookup "description"
      · exact ⟨"description", by simp [extractManifest, hn, hv, hd]⟩
      · exact ⟨"author", by simp [extractManifest, hn, hv, hd, h]⟩

theorem extractManifest_ok_shape (pj m : Json) (hE : extractManifest pj = .ok m) :
    ∃ nameV versionV descriptionV authorV,
      pj.lookup "name" = some nameV ∧ pj.lookup "version" = some versionV ∧
      pj.lookup "description" = some descriptionV ∧ pj.lookup "author" = some authorV ∧
      m = .obj [("name", nameV), ("version", versionV),
                ("description", descriptionV), ("author", authorV),
                ("icon", (pj.lookup "icon").getD .null),
                ("commands", (pj.lookup "commands").getD (.arr [])),
                ("permissions", (pj.lookup "permissions").getD (.arr []))] := by
  unfold extractManifest at hE
  cases hn : pj.lookup "name" <;> rw [hn] at hE
  · exact absurd hE (by simp)
  cases hv : pj.lookup "version" <;> rw [hv] at hE
  · exact absurd hE (by simp)
  cases hd : pj.lookup "description" <;> rw [hd] at hE
  · exact absurd hE (by simp)
  cases ha : pj.lookup "author" <;> rw [ha] at hE
  · exact absurd hE (by simp)
  exact ⟨_, _, _, _, rfl, rfl, rfl, rfl, (Except.ok.inj hE).symm⟩

theorem manifest_lookup_icon (pj m : Json) (hE : extractManifest pj = .ok m) :
    m.lookup "icon" = some ((pj.lookup "icon").getD .null) := by
  obtain ⟨nameV, versionV, descriptionV, authorV, -, -, -, -, hm⟩ :=
    extractManifest_ok_shape pj m hE
  subst hm; rfl

theorem upsert_nil_two (dm dmd : FileData) :
    upsert (upsert ([] : Archive) "manifest.json" dm) "metadata.json" dmd
      = [("manifest.json", dm), ("metadata.json", dmd)] := rfl

theorem shaRound_length (st : List Nat) (kw : Nat × Nat) :
    (shaRound st kw).length = st.length := by
  unfold shaRound
  split <;> simp

theorem foldl_shaRound_length (l : List (Nat × Nat)) (st : List Nat) :
    (l.foldl shaRound st).length = st.length := by
  induction l generalizing st with
  | nil => rfl
  | cons kw l ih => rw [List.foldl_cons, ih, shaRound_length]

theorem processBlock_length (H : List Nat) (block : Bytes) (h : H.length = 8) :
    (processBlock H block).length = 8 := by
  simp [processBlock, List.length_zip, foldl_shaRound_length, h]

theorem foldl_processBlock_length (chunks : List Bytes) (H : List Nat)
    (h : H.length = 8) : (chunks.foldl processBlock H).length = 8 := by
  induction chunks generalizing H with
  | nil => exact h
  | cons c cs ih => rw [List.foldl_cons]; exact ih _ (processBlock_length _ _ h)

theorem flatMap_wordBytes_length (l : List Nat) :
    (l.flatMap wordBytes).length = 4 * l.length := by
  induction l with
  | nil => rfl
  | cons w ws ih => simp [List.flatMap_cons, wordBytes, ih]; omega

theorem sha256_length (msg : Bytes) : (sha256 msg).length = 32 := by
  unfold sha256
  rw [flatMap_wordBytes_length,
      foldl_processBlock_length (chunks64 (padMessage msg)) shaH0 rfl]

theorem hexDigit_isLowerHexChar : ∀ n, n < 16 → isLowerHexChar (hexDigit n) = true := by
  decide

theorem flatMap_byteToHex_length (l : List Nat) :
    (l.flatMap byteToHex).length = 2 * l.length := by
  induction l with
  | nil => rfl
  | cons b bs ih => simp [List.flatMap_cons, byteToHex, ih]; omega

/-- The digest string of `hashlib.sha256(...).hexdigest()` is always 64
lowercase hexadecimal characters. -/
theorem sha256hex_isLowerHex64 (msg : Bytes) : isLowerHex64 (sha256hex msg) = true := by
  unfold isLowerHex64 sha256hex
  rw [Bool.and_eq_true]
  constructor
  · apply beq_iff_eq.mpr
    show ((sha256 msg).flatMap byteToHex).length = 64
    rw [flatMap_byteToHex_length, sha256_length]
  · apply List.all_eq_true.mpr
    intro c hc
    obtain ⟨b, hb, hcb⟩ := List.mem_flatMap.mp hc
    simp only [byteToHex, List.mem_cons, List.not_mem_nil, or_false] at hcb
    rcases hcb with h | h <;> subst h <;>
      exact hexDigit_isLowerHexChar _ (Nat.mod_lt _ (by norm_num))

theorem storedChecksum_packWithManifest (dir : PluginDir) (t : String) (m : Json) :
    (packWithManifest dir t m).1.toOption.bind storedChecksum
      = some (sha256hex (zipBytes (pass1Archive dir t m))) := by
  simp [packWithManifest, Except.toOption, storedChecksum, entryJson, pass2Archive,
        findEntry_staging_metadata, finalMetadata_eq, lookup_md_checksum]

end FleetPack

namespace FleetPack

/-! ### The claims -/

/-- Claim C1: for every successful run of `pack`, the checksum string stored
in the `metadata.json` entry of the final (pass-2) archive equals the
SHA-256 digest, as a lowercase hexadecimal string, of the bytes of the
pass-1 archive that was written at `outputPath` before the metadata
rewrite. -/
theorem c1_checksum_seals_pass1 (dir : PluginDir) (t : String)
    (h : (pack dir t).1.toOption.isSome = true) :
    ∃ a1 a2 md,
      (pack dir t).1 = .ok a2 ∧
      (pack dir t).2.outputWrites = [a1, a2] ∧
      findEntry a2 "metadata.json" = some (.jsonData md) ∧
      md.lookup "checksum" = some (.str (sha256hex (zipBytes a1))) := by
  obtain ⟨pj, m, hpj, hE, heq⟩ := pack_success_cases dir t h
  refine ⟨pass1Archive dir t m, pass2Archive dir t m, finalMetadata dir t m, ?_, ?_, ?_, ?_⟩
  · rw [heq]; rfl
  · rw [heq]; rfl
  · exact findEntry_staging_metadata ..
  · rw [finalMetadata_eq]; exact lookup_md_checksum ..

/-- Witness for C1: the theorem applied to the demo directory. -/
theorem c1_witness :
    (pack demoDir "2024-01-01T00:00:00").1.toOption.isSome = true ∧
    (∃ a1 a2 md,
      (pack demoDir "2024-01-01T00:00:00").1 = .ok a2 ∧
      (pack demoDir "2024-01-01T00:00:00").2.outputWrites = [a1, a2] ∧
      findEntry a2 "metadata.json" = some (.jsonData md) ∧
      md.lookup "checksum" = some (.str (sha256hex (zipBytes a1)))) :=
  ⟨rfl, c1_checksum_seals_pass1 demoDir "2024-01-01T00:00:00" rfl⟩

/-- Claim C2: on the source directory with the four-field demo descriptor,
an empty `dist/`, no `assets/` and no icon, `pack` succeeds, the archive
holds exactly `manifest.json` and `metadata.json`, the embedded manifest's
`commands` and `permissions` are empty lists, and the checksum is a
64-character lowercase hexadecimal string. -/
theorem c2_end_to_end :
    ((pack demoDir "2024-01-01T00:00:00").1.toOption.map archiveNames
        = some ["manifest.json", "metadata.json"]) ∧
    (((resultMetadata (pack demoDir "2024-01-01T00:00:00").1).bind
        (fun md => md.lookup "manifest")).bind (fun mm => mm.lookup "commands")
        = some (.arr [])) ∧
    (((resultMetadata (pack demoDir "2024-01-01T00:00:00").1).bind
        (fun md => md.lookup "manifest")).bind (fun mm => mm.lookup "permissions")
        = some (.arr [])) ∧
    (((pack demoDir "2024-01-01T00:00:00").1.toOption.bind storedChecksum).map isLowerHex64
        = some true) := by
  refine ⟨rfl, rfl, rfl, ?_⟩
  rw [pack_ok demoDir "2024-01-01T00:00:00" pjDemo _ rfl rfl,
      storedChecksum_packWithManifest]
  simp [sha256hex_isLowerHex64]

/-- Claim C3 fails on the code: when the source directory already holds a
leftover `.fleet-pack` directory, the `KeyError` for the missing `author`
fires before the staging phase and its `try`/`finally`, so the `.fleet-pack`
subpath still exists when `pack` raises. -/
theorem c3_counterexample :
    pjNoAuthor.lookup "author" = none ∧
    pack dirNoAuthorStale "2024-01-01T00:00:00"
      = (.error (.invalidDescriptor "author"), ⟨[], true⟩) ∧
    (pack dirNoAuthorStale "2024-01-01T00:00:00").2.stagingExists = true :=
  ⟨rfl, rfl, rfl⟩

/-- Claim C3 as amended: for every source directory whose descriptor lacks
`author` and which does not already contain a `.fleet-pack` directory,
`pack` fails with the lookup-failure error, writes nothing to `outputPath`,
and no staging area exists on disk afterwards. -/
theorem c3_invalid_descriptor (dir : PluginDir) (t : String) (pj : Json)
    (hpj : dir.packageJson = some pj) (hauthor : pj.lookup "author" = none)
    (hstale : dir.staleStaging = false) :
    ∃ k, pack dir t = (.error (.invalidDescriptor k), ⟨[], false⟩) := by
  obtain ⟨k, hE⟩ := extractManifest_error_noAuthor pj hauthor
  exact ⟨k, by rw [pack_badDescriptor dir t pj k hpj hE, hstale]⟩

/-- Witness for the amended C3. -/
theorem c3_witness :
    dirNoAuthorClean.packageJson = some pjNoAuthor ∧
    pjNoAuthor.lookup "author" = none ∧
    dirNoAuthorClean.staleStaging = false ∧
    (∃ k, pack dirNoAuthorClean "2024-01-01T00:00:00"
      = (.error (.invalidDescriptor k), ⟨[], false⟩)) :=
  ⟨rfl, rfl, rfl,
   c3_invalid_descriptor dirNoAuthorClean "2024-01-01T00:00:00" pjNoAuthor rfl rfl rfl⟩

/-- Claim C4 fails on the code: an invocation on a directory with no
`package.json` but a leftover `.fleet-pack` directory raises before the
`try`/`finally`, and the `.fleet-pack` subpath still exists at the raise. -/
theorem c4_counterexample :
    pack dirNoDescriptorStale "2024-01-01T00:00:00"
      = (.error .missingDescriptor, ⟨[], true⟩) ∧
    (pack dirNoDescriptorStale "2024-01-01T00:00:00").2.stagingExists = true :=
  ⟨rfl, rfl⟩

/-- Claim C4 as amended: when the source directory holds no pre-existing
`.fleet-pack` directory — or whenever `pack` reaches the staging phase,
in particular on every successful run — the staging area does not exist
on disk when `pack` returns or raises. -/
theorem c4_staging_cleanup (dir : PluginDir) (t : String)
    (h : dir.staleStaging = false ∨ (pack dir t).1.toOption.isSome = true) :
    (pack dir t).2.stagingExists = false := by
  cases hpj : dir.packageJson with
  | none =>
    rcases h with h | h
    · rw [pack_noDescriptor dir t hpj]; exact h
    · rw [pack_noDescriptor dir t hpj] at h; simp [Except.toOption] at h
  | some pj =>
    cases hE : extractManifest pj with
    | error k =>
      rcases h with h | h
      · rw [pack_badDescriptor dir t pj k hpj hE]; exact h
      · rw [pack_badDescriptor dir t pj k hpj hE] at h; simp [Except.toOption] at h
    | ok m => rw [pack_ok dir t pj m hpj hE]; rfl

/-- Witness for the amended C4. -/
theorem c4_witness :
    (demoDir.staleStaging = false ∨ (pack demoDir "t0").1.toOption.isSome = true) ∧
    (pack demoDir "t0").2.stagingExists = false :=
  ⟨Or.inl rfl, c4_staging_cleanup demoDir "t0" (Or.inl rfl)⟩

/-- Claim C5: for every successful run, the manifest object embedded under
the `manifest` key of the final archive's `metadata.json` is structurally
identical to the content of the standalone `manifest.json` entry. -/
theorem c5_embedded_manifest_matches (dir : PluginDir) (t : String)
    (h : (pack dir t).1.toOption.isSome = true) :
    ∃ a m md, (pack dir t).1 = .ok a ∧
      findEntry a "manifest.json" = some (.jsonData m) ∧
      findEntry a "metadata.json" = some (.jsonData md) ∧
      md.lookup "manifest" = some m := by
  obtain ⟨pj, m, hpj, hE, heq⟩ := pack_success_cases dir t h
  refine ⟨pass2Archive dir t m, m, finalMetadata dir t m, ?_, ?_, ?_, ?_⟩
  · rw [heq]; rfl
  · exact findEntry_staging_manifest ..
  · exact findEntry_staging_metadata ..
  · rw [finalMetadata_eq]; exact lookup_md_manifest ..

/-- Witness for C5. -/
theorem c5_witness :
    (pack demoDir "2024-01-01T00:00:00").1.toOption.isSome = true ∧
    (∃ a m md, (pack demoDir "2024-01-01T00:00:00").1 = .ok a ∧
      findEntry a "manifest.json" = some (.jsonData m) ∧
      findEntry a "metadata.json" = some (.jsonData md) ∧
      md.lookup "manifest" = some m) :=
  ⟨rfl, c5_embedded_manifest_matches demoDir "2024-01-01T00:00:00" rfl⟩

/-- Claim C6: when the source directory has no `package.json`, `pack` fails
with the missing-descriptor error, writes nothing to `outputPath`, and
touches nothing else (a pre-existing staging directory is left exactly as
it was). -/
theorem c6_missing_descriptor (dir : PluginDir) (t : String)
    (h : dir.packageJson = none) :
    pack dir t = (.error .missingDescriptor, ⟨[], dir.staleStaging⟩) :=
  pack_noDescriptor dir t h

/-- Witness for C6. -/
theorem c6_witness :
    dirNoDescriptorClean.packageJson = none ∧
    pack dirNoDescriptorClean "2024-01-01T00:00:00"
      = (.error .missingDescriptor, ⟨[], dirNoDescriptorClean.staleStaging⟩) :=
  ⟨rfl, c6_missing_descriptor dirNoDescriptorClean "2024-01-01T00:00:00" rfl⟩

set_option maxRecDepth 1000000 in
set_option maxHeartbeats 2000000 in
/-- Claim C7 fails on the code: `buildTime` is not the only run-dependent
value of `metadata.json`. The checksum hashes the pass-1 archive, whose
`metadata.json` embeds `buildTime`, so two runs on the same directory with
different clock values also store different checksum strings (exhibited
here on the demo directory with clock values "T1" and "T2"). -/
theorem c7_counterexample :
    resultManifest (pack demoDir "T1").1 = resultManifest (pack demoDir "T2").1 ∧
    ((pack demoDir "T1").1.toOption.bind storedChecksum).isSome = true ∧
    ((pack demoDir "T2").1.toOption.bind storedChecksum).isSome = true ∧
    (pack demoDir "T1").1.toOption.bind storedChecksum
      ≠ (pack demoDir "T2").1.toOption.bind storedChecksum := by
  have e1 := pack_ok demoDir "T1" pjDemo _ rfl rfl
  have e2 := pack_ok demoDir "T2" pjDemo _ rfl rfl
  refine ⟨?_, ?_, ?_, ?_⟩
  · rw [e1, e2]
    simp [resultManifest, packWithManifest, Except.toOption, entryJson, pass2Archive,
          findEntry_staging_manifest]
  · rw [e1, storedChecksum_packWithManifest]; rfl
  · rw [e2, storedChecksum_packWithManifest]; rfl
  · decide!

/-- Claim C7 as amended: manifest derivation is deterministic — two runs on
the same directory yield identical `manifest.json` contents even with
different clock values — and the `buildTime` field of `metadata.json`
equals the clock value of the run; but the checksum field is also
run-dependent, so `buildTime` is not the only one. -/
theorem c7_manifest_deterministic (dir : PluginDir) (t1 t2 : String)
    (h1 : (pack dir t1).1.toOption.isSome = true)
    (h2 : (pack dir t2).1.toOption.isSome = true) :
    resultManifest (pack dir t1).1 = resultManifest (pack dir t2).1 ∧
    (resultMetadata (pack dir t1).1).bind (fun md => md.lookup "buildTime")
      = some (.str t1) ∧
    (resultMetadata (pack dir t2).1).bind (fun md => md.lookup "buildTime")
      = some (.str t2) := by
  obtain ⟨pj, m, hpj, hE, heq1⟩ := pack_success_cases dir t1 h1
  obtain ⟨pj', m', hpj', hE', heq2⟩ := pack_success_cases dir t2 h2
  rw [hpj] at hpj'
  injection hpj' with hpp
  subst hpp
  rw [hE] at hE'
  injection hE' with hmm
  subst hmm
  refine ⟨?_, ?_, ?_⟩
  · rw [heq1, heq2]
    simp [resultManifest, packWithManifest, Except.toOption, entryJson,
          pass2Archive, findEntry_staging_manifest]
  · rw [heq1]
    simp [resultMetadata, packWithManifest, Except.toOption, entryJson,
          pass2Archive, findEntry_staging_metadata, finalMetadata_eq, lookup_md_buildTime]
  · rw [heq2]
    simp [resultMetadata, packWithManifest, Except.toOption, entryJson,
          pass2Archive, findEntry_staging_metadata, finalMetadata_eq, lookup_md_buildTime]

/-- Witness for the amended C7. -/
theorem c7_witness :
    (pack demoDir "T1").1.toOption.isSome = true ∧
    (pack demoDir "T2").1.toOption.isSome = true ∧
    (resultManifest (pack demoDir "T1").1 = resultManifest (pack demoDir "T2").1 ∧
     (resultMetadata (pack demoDir "T1").1).bind (fun md => md.lookup "buildTime")
       = some (.str "T1") ∧
     (resultMetadata (pack demoDir "T2").1).bind (fun md => md.lookup "buildTime")
       = some (.str "T2")) :=
  ⟨rfl, rfl, c7_manifest_deterministic demoDir "T1" "T2" rfl rfl⟩

/-- Claim C8: two descriptors agreeing on the seven recognized fields
derive the same Manifest — unrecognized descriptor fields affect neither
`manifest.json` nor the manifest embedded in `metadata.json`. -/
theorem c8_unknown_fields_ignored (pj1 pj2 : Json)
    (dist assets : Option (List (String × Bytes))) (files : List (String × Bytes))
    (stale : Bool) (t : String)
    (hname : pj1.lookup "name" = pj2.lookup "name")
    (hversion : pj1.lookup "version" = pj2.lookup "version")
    (hdescription : pj1.lookup "description" = pj2.lookup "description")
    (hauthor : pj1.lookup "author" = pj2.lookup "author")
    (hicon : pj1.lookup "icon" = pj2.lookup "icon")
    (hcommands : pj1.lookup "commands" = pj2.lookup "commands")
    (hpermissions : pj1.lookup "permissions" = pj2.lookup "permissions") :
    extractManifest pj1 = extractManifest pj2 ∧
    resultManifest (pack ⟨some pj1, dist, assets, files, stale⟩ t).1
      = resultManifest (pack ⟨some pj2, dist, assets, files, stale⟩ t).1 ∧
    (resultMetadata (pack ⟨some pj1, dist, assets, files, stale⟩ t).1).bind
        (fun md => md.lookup "manifest")
      = (resultMetadata (pack ⟨some pj2, dist, assets, files, stale⟩ t).1).bind
        (fun md => md.lookup "manifest") := by
  have hEq : extractManifest pj1 = extractManifest pj2 := by
    unfold extractManifest
    rw [hname, hversion, hdescription, hauthor, hicon, hcommands, hpermissions]
  have hpack : pack ⟨some pj1, dist, assets, files, stale⟩ t
      = pack ⟨some pj2, dist, assets, files, stale⟩ t := by
    cases hE : extractManifest pj2 with
    | error k =>
      rw [pack_badDescriptor _ t pj1 k rfl (hEq.trans hE),
          pack_badDescriptor _ t pj2 k rfl hE]
    | ok m =>
      rw [pack_ok _ t pj1 m rfl (hEq.trans hE), pack_ok _ t pj2 m rfl hE]
      rfl
  exact ⟨hEq, by rw [hpack], by rw [hpack]⟩

/-- Witness for C8: a descriptor with unrecognized fields `extra` and
`keywords` against the same descriptor without them. -/
theorem c8_witness :
    pjWithExtra.lookup "name" = pjWithoutExtra.lookup "name" ∧
    pjWithExtra.lookup "version" = pjWithoutExtra.lookup "version" ∧
    pjWithExtra.lookup "description" = pjWithoutExtra.lookup "description" ∧
    pjWithExtra.lookup "author" = pjWithoutExtra.lookup "author" ∧
    pjWithExtra.lookup "icon" = pjWithoutExtra.lookup "icon" ∧
    pjWithExtra.lookup "commands" = pjWithoutExtra.lookup "commands" ∧
    pjWithExtra.lookup "permissions" = pjWithoutExtra.lookup "permissions" ∧
    (extractManifest pjWithExtra = extractManifest pjWithoutExtra ∧
     resultManifest (pack ⟨some pjWithExtra, some [], none, [], false⟩ "t0").1
       = resultManifest (pack ⟨some pjWithoutExtra, some [], none, [], false⟩ "t0").1 ∧
     (resultMetadata (pack ⟨some pjWithExtra, some [], none, [], false⟩ "t0").1).bind
         (fun md => md.lookup "manifest")
       = (resultMetadata (pack ⟨some pjWithoutExtra, some [], none, [], false⟩ "t0").1).bind
         (fun md => md.lookup "manifest")) :=
  ⟨rfl, rfl, rfl, rfl, rfl, rfl, rfl,
   c8_unknown_fields_ignored pjWithExtra pjWithoutExtra (some []) none [] false "t0"
     rfl rfl rfl rfl rfl rfl rfl⟩

/-- Claim C9: when the descriptor declares an icon naming a file that does
not exist under the source directory, `pack` still succeeds and the
produced archive contains no icon file — every entry is `manifest.json`,
`metadata.json`, or lives under `dist/` or `assets/`. -/
theorem c9_missing_icon_skipped (dir : PluginDir) (t : String) (pj : Json) (s : String)
    (hpj : dir.packageJson = some pj)
    (hok : (extractManifest pj).toOption.isSome = true)
    (hicon : pj.lookup "icon" = some (.str s))
    (hmiss : findFile dir.files s = none) :
    (pack dir t).1.toOption.isSome = true ∧
    ∀ a, (pack dir t).1 = .ok a → ∀ e ∈ a,
      e.1 = "manifest.json" ∨ e.1 = "metadata.json" ∨
      strLeads "dist/" e.1 = true ∨ strLeads "assets/" e.1 = true := by
  cases hE : extractManifest pj with
  | error k => rw [hE] at hok; simp [Except.toOption] at hok
  | ok m =>
  have heq := pack_ok dir t pj m hpj hE
  constructor
  · rw [heq]; rfl
  · intro a ha e he
    rw [heq] at ha
    have ha' : a = pass2Archive dir t m := (Except.ok.inj ha).symm
    subst ha'
    have hmi : m.lookup "icon" = some (.str s) := by
      rw [manifest_lookup_icon pj m hE, hicon]; rfl
    have hic : iconEntries dir m = [] := by
      unfold iconEntries
      rw [hmi]
      by_cases hs : s = ""
      · subst hs; rfl
      · simp [Json.truthy, hs, hmiss]
    have hmem : e ∈ upsert (upsert (iconEntries dir m) "manifest.json" (.jsonData m))
        "metadata.json" (.jsonData (finalMetadata dir t m))
        ++ distEntries dir.dist ++ assetsEntries dir.assets := he
    rw [hic, upsert_nil_two] at hmem
    rcases List.mem_append.mp hmem with h1 | hassets
    · rcases List.mem_append.mp h1 with hroot | hdist
      · simp only [List.mem_cons, List.not_mem_nil, or_false] at hroot
        rcases hroot with h | h
        · left; rw [h]
        · right; left; rw [h]
      · right; right; left
        obtain ⟨p, hp, hpe⟩ := List.mem_map.mp hdist
        rw [← hpe]
        exact strLeads_append "dist/" p.1
    · right; right; right
      obtain ⟨p, hp, hpe⟩ := List.mem_map.mp hassets
      rw [← hpe]
      exact strLeads_append "assets/" p.1

/-- Witness for C9. -/
theorem c9_witness :
    dirMissingIcon.packageJson = some pjMissingIcon ∧
    (extractManifest pjMissingIcon).toOption.isSome = true ∧
    pjMissingIcon.lookup "icon" = some (.str "assets/icon.png") ∧
    findFile dirMissingIcon.files "assets/icon.png" = none ∧
    ((pack dirMissingIcon "t0").1.toOption.isSome = true ∧
     ∀ a, (pack dirMissingIcon "t0").1 = .ok a → ∀ e ∈ a,
       e.1 = "manifest.json" ∨ e.1 = "metadata.json" ∨
       strLeads "dist/" e.1 = true ∨ strLeads "assets/" e.1 = true) :=
  ⟨rfl, rfl, rfl, rfl,
   c9_missing_icon_skipped dirMissingIcon "t0" pjMissingIcon "assets/icon.png"
     rfl rfl rfl rfl⟩

/-- Claim C10: when the descriptor has no `icon` field, the derived
Manifest still carries the `icon` key with a null value — both in the
standalone `manifest.json` and in the manifest embedded in
`metadata.json`. -/
theorem c10_icon_key_null (dir : PluginDir) (t : String) (pj : Json)
    (hpj : dir.packageJson = some pj)
    (hok : (extractManifest pj).toOption.isSome = true)
    (hnoicon : pj.lookup "icon" = none) :
    ∃ a m, (pack dir t).1 = .ok a ∧
      findEntry a "manifest.json" = some (.jsonData m) ∧
      m.lookup "icon" = some .null ∧
      ((entryJson a "metadata.json").bind (fun md => md.lookup "manifest")).bind
        (fun mm => mm.lookup "icon") = some .null := by
  cases hE : extractManifest pj with
  | error k => rw [hE] at hok; simp [Except.toOption] at hok
  | ok m =>
  have heq := pack_ok dir t pj m hpj hE
  have hmi : m.lookup "icon" = some .null := by
    rw [manifest_lookup_icon pj m hE, hnoicon]; rfl
  refine ⟨pass2Archive dir t m, m, ?_, ?_, hmi, ?_⟩
  · rw [heq]; rfl
  · exact findEntry_staging_manifest ..
  · simp [entryJson, pass2Archive, findEntry_staging_metadata, finalMetadata_eq,
          lookup_md_manifest, hmi]

/-- Witness for C10. -/
theorem c10_witness :
    demoDir.packageJson = some pjDemo ∧
    (extractManifest pjDemo).toOption.isSome = true ∧
    pjDemo.lookup "icon" = none ∧
    (∃ a m, (pack demoDir "t0").1 = .ok a ∧
      findEntry a "manifest.json" = some (.jsonData m) ∧
      m.lookup "icon" = some .null ∧
      ((entryJson a "metadata.json").bind (fun md => md.lookup "manifest")).bind
        (fun mm => mm.lookup "icon") = some .null) :=
  ⟨rfl, rfl, rfl, c10_icon_key_null demoDir "t0" pjDemo rfl rfl rfl⟩

end FleetPack
